import Mathlib

/-
Verification of the Memora chat-relay backend's message-processing pipeline.

The definitions below are a shallow embedding of the Python source:

  * `MemoryService` (src/backend/services/memory_service.py): the simple
    file-based fallback store (`get_user_context`, `store_interaction`) and the
    mem0 retrieval path (`get_user_context_mem0`).  The JSON file holding the
    per-user interaction lists is modelled as a total function from usernames
    to interaction lists (a Python dict read with `.get(username, [])`); the
    success of the file load and of the file save are explicit boolean
    parameters (the corresponding `try/except` blocks catch every error).
  * `AIService` (src/backend/services/ai_service.py): `generate_response` with
    the Gemini backend modelled as an oracle (`GenBackend`): absent client,
    call failure, or a function from the full prompt to the returned text.
    `random.choice` over the four generic templates is modelled by an index
    reduced modulo 4.
  * `MessageHandler.process_message` (src/backend/services/message_handler.py):
    `process_message` takes the outcome of each awaited step (an `Except`
    models an exception escaping that step) and mirrors the top-level
    `try/except`; `process_message_run` is the normal run where each service
    call returns (their own bodies are wrapped in catch-all handlers).
  * `ChatAgent.handle_data_received_async` (src/backend/agent.py): the
    transport-side routing of a decoded payload, with the optional JSON
    envelope modelled as an optional record of its four string fields.

Python dictionaries appearing as data (context items, mem0 metadata) are
modelled as association lists of string pairs so that key lookups such as
`item.get('user_message', '')` keep their exact semantics.
-/

namespace Memora

/-- A Python dict with string keys and string values, as an association list. -/
abbrev PyDict := List (String × String)

/-- Python `d.get(key)`: the value at `key`, or `none` when absent. -/
def lookup? (d : PyDict) (key : String) : Option String :=
  (d.find? (fun kv => kv.1 == key)).map (fun kv => kv.2)

/-- Python `d.get(key, dflt)`. -/
def dictGet (d : PyDict) (key dflt : String) : String :=
  match lookup? d key with
  | some v => v
  | none => dflt

/-- Python `l[-n:]` for `n > 0`: the last `n` elements (all of them when the
list is shorter). -/
def takeLast {α : Type} (n : Nat) (l : List α) : List α :=
  l.drop (l.length - n)

/-- One record of the simple file-based memory, as `store_interaction` writes
it (memory_service.py lines 247-252). -/
structure Interaction where
  user_message : String
  bot_response : String
  timestamp : String
  conversation_type : String
deriving DecidableEq

/-- The simple file-based memory: the JSON object mapping each username to its
list of stored interactions; an absent key reads as the empty list
(`memory_data.get(username, [])` / the `if username not in memory_data`
initialisation). -/
abbrev SimpleMemory := String → List Interaction

/-- The store before anything was written (`_load_simple_memory` returns `{}`
when the file does not exist). -/
def emptyMemory : SimpleMemory := fun _ => []

/-- The conversion loop of `get_user_context` (memory_service.py lines
176-179): each stored conversation contributes a user-role dict and then an
assistant-role dict. -/
def contextOfConversations : List Interaction → List PyDict
  | [] => []
  | c :: rest =>
      [("role", "user"), ("content", c.user_message)] ::
        [("role", "assistant"), ("content", c.bot_response)] ::
          contextOfConversations rest

/-- memory_service.py line 182: `max_context_items = 20`. -/
def max_context_items : Nat := 20

/-- `MemoryService.get_user_context`, simple file-based branch (memory_service.py
lines 168-185).  `loadOk = false` models `_load_simple_memory` hitting an error
and returning `{}` (its catch-all).  The surrounding `try/except` of
`get_user_context` returns `[]` on any escaping exception; with the typed state
no other exception can arise in this branch. -/
def get_user_context (loadOk : Bool) (st : SimpleMemory) (username : String) :
    List PyDict :=
  let memory_data := if loadOk then st else emptyMemory
  let user_conversations := memory_data username
  let context := contextOfConversations user_conversations
  takeLast max_context_items context

/-- One record of a mem0 `get_all` response (memory_service.py lines 200-215):
the `memory` text and the `metadata` dict.  Entries that are not dicts are
skipped by the code's `isinstance` check and are not represented. -/
structure Mem0Record where
  memory : String
  metadata : PyDict

/-- The conversion loop of the mem0 branch of `get_user_context`
(memory_service.py lines 199-215): a user item when the metadata holds
`user_message`, an assistant item from `bot_response` or else from the
memory text when that is non-empty. -/
def contextOfMemories : List Mem0Record → List PyDict
  | [] => []
  | m :: rest =>
      (match lookup? m.metadata "user_message" with
        | some v => [[("role", "user"), ("content", v)]]
        | none => []) ++
      (match lookup? m.metadata "bot_response" with
        | some v => [[("role", "assistant"), ("content", v)]]
        | none =>
            if m.memory != "" then
              [[("role", "assistant"), ("content", m.memory)]]
            else []) ++
      contextOfMemories rest

/-- `MemoryService.get_user_context`, mem0 branch (memory_service.py lines
187-219).  `none` models a falsy `get_all` response or one without a
`results` key (lines 191-193). -/
def get_user_context_mem0 (memories_response : Option (List Mem0Record)) :
    List PyDict :=
  match memories_response with
  | none => []
  | some memories => takeLast max_context_items (contextOfMemories memories)

/-- `MemoryService.store_interaction`, simple file-based branch
(memory_service.py lines 238-262).  `loadOk` models `_load_simple_memory`
succeeding, `saveOk` models `_save_simple_memory` succeeding; on a failed save
the function returns `false` and the file keeps its old contents. -/
def store_interaction (loadOk saveOk : Bool) (st : SimpleMemory)
    (username user_message bot_response ts : String) : Bool × SimpleMemory :=
  let memory_data := if loadOk then st else emptyMemory
  let interaction : Interaction :=
    { user_message := user_message, bot_response := bot_response,
      timestamp := ts, conversation_type := "chat_room" }
  let newList := takeLast 50 (memory_data username ++ [interaction])
  let updated : SimpleMemory :=
    fun u => if u == username then newList else memory_data u
  if saveOk then (true, updated) else (false, st)

/-- Python `str.lower()` (ASCII range, which covers every keyword the code
tests). -/
def strToLower (s : String) : String := String.mk (s.data.map Char.toLower)

/-- Python `str.strip()`: surrounding whitespace removed. -/
def pyStrip (s : String) : String :=
  String.mk
    (((s.data.dropWhile Char.isWhitespace).reverse.dropWhile
        Char.isWhitespace).reverse)

/-- Whether `pat` is a prefix of `s` (character lists). -/
def charsPrefixOf : List Char → List Char → Bool
  | [], _ => true
  | _ :: _, [] => false
  | a :: as, b :: bs => a == b && charsPrefixOf as bs

/-- Whether `pat` occurs contiguously inside `s` (character lists). -/
def charsInfixOf (pat : List Char) : List Char → Bool
  | [] => charsPrefixOf pat []
  | c :: rest => charsPrefixOf pat (c :: rest) || charsInfixOf pat rest

/-- Python `pat in s` on strings: substring containment. -/
def strIncludes (s pat : String) : Bool := charsInfixOf pat.data s.data

/-- Python `any(word in s for word in words)`. -/
def containsAny (s : String) (words : List String) : Bool :=
  words.any (fun w => strIncludes s w)

/-- The substring-containment property: `t` occurs verbatim inside `s`. -/
def containsSubstring (s t : String) : Prop := ∃ a b, s = (a ++ t) ++ b

/-- The Gemini backend as `AIService.generate_response` observes it:
`unavailable` is `self.client is None` (no API key or failed initialisation),
`failure` is the `generate_content` call or `response.text` raising, and
`success f` maps the full prompt sent to the backend to the `response.text`
it returns. -/
inductive GenBackend where
  | unavailable : GenBackend
  | failure : GenBackend
  | success : (String → String) → GenBackend

/-- The four generic fallback templates (ai_service.py lines 66-71). -/
def fallback_responses (message : String) : List String :=
  ["Thanks for your message: '" ++ message ++
     "'. I'm currently running in fallback mode, but I'm here to help!",
   "I received your message: '" ++ message ++
     "'. My AI service is temporarily simplified, but I can still chat with you!",
   "I understand you said: '" ++ message ++
     "'. I'm your AI assistant, working on restoring full capabilities!",
   "Interesting message: '" ++ message ++
     "'. I'm processing in basic mode while technical issues are resolved!"]

/-- The keyword-routed fallback branch of `generate_response` (ai_service.py
lines 53-73), taken when the client is `None`.  `pick` models the index
`random.choice` draws over the four generic templates. -/
def fallback_reply (message : String) (pick : Nat) : String :=
  let message_lower := strToLower message
  if containsAny message_lower ["hello", "hi", "hey", "greetings"] then
    "Hello! I received your greeting: '" ++ message ++
      "'. I'm your AI assistant, currently running in fallback mode while we resolve some compatibility issues, but I'm here to help!"
  else if containsAny message_lower ["help", "assist", "support"] then
    "I'd be happy to help! You asked: '" ++ message ++
      "'. While my full AI capabilities are being restored, I can still provide basic assistance."
  else if containsAny message_lower ["thank", "thanks"] then
    "You're welcome! I'm glad I could help. You said: '" ++ message ++
      "'. I'm working on getting my advanced AI features online soon!"
  else if strIncludes message "?" then
    "That's a great question: '" ++ message ++
      "'. I'm currently in simplified response mode due to some technical issues, but I'm working on providing better answers soon!"
  else
    (fallback_responses message).getD (pick % 4) ""

/-- `AIService._get_system_prompt` (ai_service.py lines 115-134). -/
def get_system_prompt : String :=
  "You are a helpful and friendly AI assistant in a chat room. \n\nKey guidelines:\n- Be conversational and engaging\n- Remember context from previous messages when provided\n- Keep responses concise (1-3 sentences typically)\n- Be helpful and try to answer questions accurately\n- If you don't know something, admit it honestly\n- Use a friendly, approachable tone\n- You can use emojis sparingly to add personality\n- If someone greets you, greet them back warmly\n\nYou have access to conversation history to provide contextual responses."

/-- `AIService._format_context` (ai_service.py lines 136-159): keeps the last
five items, and per item emits a User/Assistant line pair when both the
`user_message` and the `bot_response` keys hold non-empty text. -/
def format_context (context : List PyDict) : String :=
  let recent_context := if context.length > 5 then takeLast 5 context else context
  let formatted_lines :=
    recent_context.foldl
      (fun acc item =>
        let user_msg := dictGet item "user_message" ""
        let bot_response := dictGet item "bot_response" ""
        if user_msg != "" && bot_response != "" then
          acc ++ ["User: " ++ user_msg, "Assistant: " ++ bot_response]
        else acc)
      []
  String.intercalate "\n" formatted_lines

/-- The prompt `generate_response` assembles for the backend (ai_service.py
lines 76-89): system prompt, the formatted context section when `context` is
non-empty (Python truthiness of the list), the user message, and the closing
instruction, joined by blank lines. -/
def build_prompt (message : String) (context : List PyDict) : String :=
  let prompt_parts := [get_system_prompt]
  let prompt_parts :=
    if context.isEmpty then prompt_parts
    else prompt_parts ++
      ["Previous conversation context:\n" ++ format_context context]
  let prompt_parts := prompt_parts ++ ["User message: " ++ message]
  let prompt_parts := prompt_parts ++ ["Please respond naturally and helpfully:"]
  String.intercalate "\n\n" prompt_parts

/-- `AIService.generate_response` (ai_service.py lines 41-113): the keyword
fallback when the client is absent, the stripped backend text on success, and
the canned apology when the backend call raises (caught by the method's
`try/except`). -/
def generate_response (message : String) (context : List PyDict)
    (backend : GenBackend) (pick : Nat) : String :=
  match backend with
  | GenBackend.unavailable => fallback_reply message pick
  | GenBackend.success text => pyStrip (text (build_prompt message context))
  | GenBackend.failure =>
      "I'm having trouble generating a response right now. Please try again in a moment."

/-- The literal the top-level `except` of `MessageHandler.process_message`
returns (message_handler.py line 55). -/
def error_reply : String :=
  "Sorry, I encountered an error processing your message. Please try again."

/-- `MessageHandler.process_message` (message_handler.py lines 25-55) over the
outcomes of its three awaited steps; `Except.error` models an exception
escaping that step, which the surrounding `try/except` turns into
`error_reply`. -/
def process_message (getCtxR : Except Unit (List PyDict))
    (genR : List PyDict → Except Unit String)
    (storeR : String → Except Unit Bool) : String :=
  match getCtxR with
  | Except.error _ => error_reply
  | Except.ok user_context =>
    match genR user_context with
    | Except.error _ => error_reply
    | Except.ok response =>
      match storeR response with
      | Except.error _ => error_reply
      | Except.ok _ => response

/-- A normal run of `process_message` in file-based memory mode: every service
call returns (each service body is wrapped in its own catch-all handler), so
the reply is the generated response and the new state is whatever
`store_interaction` left behind.  `loadOk`/`loadOk2` are the two
`_load_simple_memory` outcomes, `saveOk` the `_save_simple_memory` outcome. -/
def process_message_run (content username : String) (loadOk : Bool)
    (st : SimpleMemory) (backend : GenBackend) (pick : Nat)
    (loadOk2 saveOk : Bool) (ts : String) : String × SimpleMemory :=
  let user_context := get_user_context loadOk st username
  let response := generate_response content user_context backend pick
  let stored := store_interaction loadOk2 saveOk st username content response ts
  (response, stored.2)

/-- The optional JSON envelope of an inbound payload (agent.py lines 118-121):
the four string fields the handler reads, each possibly absent. -/
structure Envelope where
  content? : Option String
  message? : Option String
  type? : Option String
  sender? : Option String

/-- What `ChatAgent.handle_data_received_async` does with a decoded payload. -/
inductive HandlerAction where
  | processCall : String → String → HandlerAction
  | ignored : HandlerAction
deriving DecidableEq

/-- The identity `ChatAgent.send_response` publishes under (agent.py line
162). -/
def bot_identity : String := "AI Assistant"

/-- `ChatAgent.handle_data_received_async` (agent.py lines 108-135) after the
payload was decoded to `text_data`: `parsed = none` models a
`json.JSONDecodeError` (the raw text goes through verbatim), otherwise the
message text follows `message_data.get('content') or
message_data.get('message', text_data)` (a falsy `content` value falls
through) and `message_data.get('type', 'chat')`; only the two chat types reach
`process_chat_message`, with the transport-level participant identity as the
username. -/
def handle_data_received (text_data participant_identity : String)
    (parsed : Option Envelope) : HandlerAction :=
  match parsed with
  | none => HandlerAction.processCall text_data participant_identity
  | some message_data =>
    let fromMessage : String :=
      match message_data.message? with
      | some m => m
      | none => text_data
    let message_text :=
      match message_data.content? with
      | some c => if c != "" then c else fromMessage
      | none => fromMessage
    let message_type :=
      match message_data.type? with
      | some t => t
      | none => "chat"
    if message_type == "chat-message" || message_type == "chat" then
      HandlerAction.processCall message_text participant_identity
    else
      HandlerAction.ignored

/-- One `store_interaction` call of a run: its target user, the stored texts
and whether the file save succeeded. -/
structure StoreOp where
  username : String
  user_message : String
  bot_response : String
  timestamp : String
  saveOk : Bool

/-- The state after one store call (file load succeeding). -/
def applyStore (st : SimpleMemory) (op : StoreOp) : SimpleMemory :=
  (store_interaction true op.saveOk st op.username op.user_message
      op.bot_response op.timestamp).2

/-- The state after a sequence of store calls. -/
def applyStores (ops : List StoreOp) (st : SimpleMemory) : SimpleMemory :=
  ops.foldl applyStore st

/-- A context window of even length that strictly alternates a user-role item
and then an assistant-role item. -/
def alternates_user_assistant : List PyDict → Bool
  | [] => true
  | [_] => false
  | u :: a :: rest =>
      dictGet u "role" "" == "user" && dictGet a "role" "" == "assistant" &&
        alternates_user_assistant rest

theorem takeLast_length_le {α : Type} (n : Nat) (l : List α) :
    (takeLast n l).length ≤ n := by
  simp only [takeLast, List.length_drop]
  omega

theorem takeLast_suffix {α : Type} (n : Nat) (l : List α) :
    takeLast n l <:+ l :=
  List.drop_suffix _ l

theorem takeLast_subset {α : Type} (n : Nat) (l : List α) :
    takeLast n l ⊆ l :=
  List.drop_subset _ l

theorem takeLast_append_of_le {α : Type} (n : Nat) (l₁ l₂ : List α)
    (h : l₂.length ≤ n) : ∃ pre, takeLast n (l₁ ++ l₂) = pre ++ l₂ := by
  refine ⟨l₁.drop ((l₁ ++ l₂).length - n), ?_⟩
  simp only [takeLast]
  apply List.drop_append_of_le_length
  simp only [List.length_append]
  omega

theorem contextOfConversations_append (l₁ l₂ : List Interaction) :
    contextOfConversations (l₁ ++ l₂)
      = contextOfConversations l₁ ++ contextOfConversations l₂ := by
  induction l₁ with
  | nil => rfl
  | cons c rest ih => simp [contextOfConversations, ih]

theorem length_contextOfConversations (l : List Interaction) :
    (contextOfConversations l).length = 2 * l.length := by
  induction l with
  | nil => rfl
  | cons c rest ih =>
      simp only [contextOfConversations, List.length_cons, ih]
      omega

theorem drop_contextOfConversations (l : List Interaction) (k : Nat) :
    (contextOfConversations l).drop (2 * k) = contextOfConversations (l.drop k) := by
  induction l generalizing k with
  | nil => simp [contextOfConversations]
  | cons c rest ih =>
      cases k with
      | zero => rfl
      | succ k =>
          have h2 : 2 * (k + 1) = 2 * k + 1 + 1 := by omega
          simp only [contextOfConversations, h2, List.drop_succ_cons, List.drop]
          exact ih k

theorem takeLast_contextOfConversations (l : List Interaction) :
    takeLast 20 (contextOfConversations l)
      = contextOfConversations (takeLast 10 l) := by
  have hlen := length_contextOfConversations l
  have h2 : (contextOfConversations l).length - 20 = 2 * (l.length - 10) := by
    omega
  simp only [takeLast]
  rw [h2, drop_contextOfConversations]

theorem alternates_contextOfConversations (l : List Interaction) :
    alternates_user_assistant (contextOfConversations l) = true := by
  induction l with
  | nil => rfl
  | cons c rest ih =>
      simp only [contextOfConversations, alternates_user_assistant, ih]
      rfl

theorem fallback_reply_echo (m : String) (pick : Nat) :
    ∃ a b, fallback_reply m pick = (a ++ m) ++ b ∧ 0 < a.length := by
  simp only [fallback_reply]
  split
  · exact ⟨"Hello! I received your greeting: '",
      "'. I'm your AI assistant, currently running in fallback mode while we resolve some compatibility issues, but I'm here to help!",
      rfl, by decide⟩
  · split
    · exact ⟨"I'd be happy to help! You asked: '",
        "'. While my full AI capabilities are being restored, I can still provide basic assistance.",
        rfl, by decide⟩
    · split
      · exact ⟨"You're welcome! I'm glad I could help. You said: '",
          "'. I'm working on getting my advanced AI features online soon!",
          rfl, by decide⟩
      · split
        · exact ⟨"That's a great question: '",
            "'. I'm currently in simplified response mode due to some technical issues, but I'm working on providing better answers soon!",
            rfl, by decide⟩
        · obtain ⟨k, hk, hke⟩ : ∃ k, k < 4 ∧ pick % 4 = k :=
            ⟨pick % 4, Nat.mod_lt _ (by omega), rfl⟩
          rw [hke]
          interval_cases k
          · exact ⟨"Thanks for your message: '",
              "'. I'm currently running in fallback mode, but I'm here to help!",
              rfl, by decide⟩
          · exact ⟨"I received your message: '",
              "'. My AI service is temporarily simplified, but I can still chat with you!",
              rfl, by decide⟩
          · exact ⟨"I understand you said: '",
              "'. I'm your AI assistant, working on restoring full capabilities!",
              rfl, by decide⟩
          · exact ⟨"Interesting message: '",
              "'. I'm processing in basic mode while technical issues are resolved!",
              rfl, by decide⟩

theorem fallback_reply_length_pos (m : String) (pick : Nat) :
    0 < (fallback_reply m pick).length := by
  obtain ⟨a, b, heq, ha⟩ := fallback_reply_echo m pick
  rw [heq]
  simp only [String.length_append]
  omega

theorem mem_contextOfConversations_no_user_message (it : PyDict)
    (l : List Interaction) (h : it ∈ contextOfConversations l) :
    dictGet it "user_message" "" = "" := by
  induction l with
  | nil => cases h
  | cons c rest ih =>
      simp only [contextOfConversations, List.mem_cons] at h
      rcases h with h | h | h
      · subst h; rfl
      · subst h; rfl
      · exact ih h

theorem foldl_keep_acc {α β : Type} (f : β → α → β) (l : List α) (acc : β)
    (h : ∀ b, ∀ it ∈ l, f b it = b) : List.foldl f acc l = acc := by
  induction l generalizing acc with
  | nil => rfl
  | cons it rest ih =>
      rw [List.foldl_cons, h acc it (List.mem_cons_self it rest)]
      exact ih acc (fun b x hx => h b x (List.mem_cons_of_mem it hx))

theorem format_context_all_roles (ctx : List PyDict)
    (h : ∀ it ∈ ctx, dictGet it "user_message" "" = "") :
    format_context ctx = "" := by
  have hsub : ∀ it ∈ (if ctx.length > 5 then takeLast 5 ctx else ctx),
      dictGet it "user_message" "" = "" := by
    intro it hit
    apply h
    by_cases hc : ctx.length > 5
    · rw [if_pos hc] at hit
      exact takeLast_subset _ _ hit
    · rw [if_neg hc] at hit
      exact hit
  simp only [format_context]
  rw [foldl_keep_acc]
  · rfl
  · intro b it hit
    have hm := hsub it hit
    simp [hm]

theorem store_interaction_apply_ne (saveOk : Bool) (st : SimpleMemory)
    (v m r ts u : String) (h : u ≠ v) :
    (store_interaction true saveOk st v m r ts).2 u = st u := by
  cases saveOk <;> simp [store_interaction, h]

theorem applyStore_apply_ne (st : SimpleMemory) (op : StoreOp) (u : String)
    (h : op.username ≠ u) : applyStore st op u = st u :=
  store_interaction_apply_ne op.saveOk st op.username op.user_message
    op.bot_response op.timestamp u (fun he => h he.symm)

theorem applyStore_congr (st₁ st₂ : SimpleMemory) (op : StoreOp) (u : String)
    (h : st₁ u = st₂ u) : applyStore st₁ op u = applyStore st₂ op u := by
  unfold applyStore store_interaction
  cases op.saveOk
  · simpa using h
  · by_cases hb : u = op.username
    · subst hb
      simp [h]
    · simp [hb, h]

theorem applyStores_congr (ops : List StoreOp) (st₁ st₂ : SimpleMemory)
    (u : String) (h : st₁ u = st₂ u) :
    applyStores ops st₁ u = applyStores ops st₂ u := by
  induction ops generalizing st₁ st₂ with
  | nil => exact h
  | cons op rest ih =>
      simp only [applyStores, List.foldl_cons]
      exact ih (applyStore st₁ op) (applyStore st₂ op)
        (applyStore_congr st₁ st₂ op u h)

theorem applyStores_filter (ops : List StoreOp) (st : SimpleMemory)
    (u : String) :
    applyStores ops st u
      = applyStores (ops.filter (fun op => op.username == u)) st u := by
  induction ops generalizing st with
  | nil => rfl
  | cons op rest ih =>
      by_cases hb : op.username = u
      · have hbt : (op.username == u) = true := beq_iff_eq.mpr hb
        have hfe : List.filter (fun op => op.username == u) (op :: rest)
            = op :: List.filter (fun op => op.username == u) rest := by
          simp [List.filter_cons, hbt]
        rw [hfe]
        simp only [applyStores, List.foldl_cons]
        exact ih (applyStore st op)
      · have hbf : (op.username == u) = false := beq_eq_false_iff_ne.mpr hb
        have hfe : List.filter (fun op => op.username == u) (op :: rest)
            = List.filter (fun op => op.username == u) rest := by
          simp [List.filter_cons, hbf]
        rw [hfe]
        simp only [applyStores, List.foldl_cons]
        exact (ih (applyStore st op)).trans
          (applyStores_congr _ _ _ u (applyStore_apply_ne st op u hb))

/-- C2: `get_user_context` returns at most 20 role/content entries forming a
suffix (the most recent part, order preserved oldest-to-newest) of the full
converted history, and returns the empty list rather than raising when the
user has no history or the file load fails; the mem0 branch is likewise
capped at 20 and yields the empty list on a missing or falsy response. -/
theorem get_user_context_spec :
    (∀ loadOk st u, (get_user_context loadOk st u).length ≤ 20) ∧
    (∀ loadOk st u, get_user_context loadOk st u
        <:+ contextOfConversations ((if loadOk then st else emptyMemory) u)) ∧
    (∀ st u, st u = [] → get_user_context true st u = []) ∧
    (∀ st u, get_user_context false st u = []) ∧
    (∀ resp, (get_user_context_mem0 resp).length ≤ 20) ∧
    get_user_context_mem0 none = [] := by
  refine ⟨?_, ?_, ?_, ?_, ?_, rfl⟩
  · intro loadOk st u
    simp only [get_user_context, max_context_items]
    exact takeLast_length_le _ _
  · intro loadOk st u
    simp only [get_user_context]
    exact takeLast_suffix _ _
  · intro st u h
    simp [get_user_context, h, contextOfConversations, takeLast]
  · intro st u
    rfl
  · intro resp
    cases resp with
    | none => simp [get_user_context_mem0]
    | some memories =>
        simp only [get_user_context_mem0, max_context_items]
        exact takeLast_length_le _ _

/-- Witness for C2 at a concrete input: a user with no history gets the empty
context. -/
theorem get_user_context_spec_witness :
    get_user_context true emptyMemory "alice" = [] :=
  get_user_context_spec.2.2.1 emptyMemory "alice" rfl

/-- C4: storing an interaction and immediately fetching context for the same
user ends the retrieved context with exactly that (user_message, bot_response)
pair, in user-then-assistant order. -/
theorem store_then_get_roundtrip (st : SimpleMemory) (u m r ts : String) :
    ∃ pre, get_user_context true (store_interaction true true st u m r ts).2 u
      = pre ++ [[("role", "user"), ("content", m)],
                [("role", "assistant"), ("content", r)]] := by
  have hstate : (store_interaction true true st u m r ts).2 u
      = takeLast 50 (st u ++ [⟨m, r, ts, "chat_room"⟩]) := by
    simp [store_interaction]
  obtain ⟨p1, hp1⟩ :=
    takeLast_append_of_le 50 (st u) [(⟨m, r, ts, "chat_room"⟩ : Interaction)]
      (by simp)
  obtain ⟨p2, hp2⟩ :=
    takeLast_append_of_le 20 (contextOfConversations p1)
      [[("role", "user"), ("content", m)],
       [("role", "assistant"), ("content", r)]] (by simp)
  refine ⟨p2, ?_⟩
  simp only [get_user_context, max_context_items, if_true]
  rw [hstate, hp1, contextOfConversations_append]
  exact hp2

/-- C5: memory is partitioned by the username key alone: a store under a
different user leaves a user's retrieved context unchanged, and over any
sequence of store calls the retrieved context coincides with what the calls
made under that same username alone would have produced. -/
theorem memory_partition :
    (∀ st u v m r ts saveOk, u ≠ v →
        get_user_context true (store_interaction true saveOk st v m r ts).2 u
          = get_user_context true st u) ∧
    (∀ ops st u, get_user_context true (applyStores ops st) u
        = get_user_context true
            (applyStores (ops.filter (fun op => op.username == u)) st) u) := by
  constructor
  · intro st u v m r ts saveOk h
    simp only [get_user_context, if_true]
    rw [store_interaction_apply_ne saveOk st v m r ts u h]
  · intro ops st u
    simp only [get_user_context, if_true]
    rw [applyStores_filter]

/-- Witness for C5 at a concrete input: bob's store does not change alice's
context. -/
theorem memory_partition_witness :
    get_user_context true
        (store_interaction true true emptyMemory "bob" "hello" "reply" "t0").2
        "alice"
      = get_user_context true emptyMemory "alice" :=
  memory_partition.1 emptyMemory "alice" "bob" "hello" "reply" "t0" true
    (by decide)

/-- C7: the reply `process_message` returns is exactly the generator's output,
whatever the persistence outcome; `store_interaction` reports a failed save
through its boolean result instead of raising. -/
theorem reply_independent_of_persistence
    (content username : String) (loadOk : Bool) (st : SimpleMemory)
    (backend : GenBackend) (pick : Nat) (loadOk2 saveOk : Bool) (ts : String) :
    (process_message_run content username loadOk st backend pick
        loadOk2 saveOk ts).1
      = generate_response content (get_user_context loadOk st username)
          backend pick ∧
    (store_interaction loadOk2 saveOk st username content
        (generate_response content (get_user_context loadOk st username)
          backend pick) ts).1 = saveOk := by
  constructor
  · rfl
  · cases saveOk <;> rfl

/-- C10: in file-based mode the retrieved context is exactly the conversion of
the last ten stored interactions, hence of even length and strictly
alternating user-then-assistant roles: the 20-item cap never splits a
(user, assistant) pair. -/
theorem context_pairs_alternate (loadOk : Bool) (st : SimpleMemory)
    (u : String) :
    get_user_context loadOk st u
      = contextOfConversations
          (takeLast 10 ((if loadOk then st else emptyMemory) u)) ∧
    (get_user_context loadOk st u).length % 2 = 0 ∧
    alternates_user_assistant (get_user_context loadOk st u) = true := by
  have hmain : get_user_context loadOk st u
      = contextOfConversations
          (takeLast 10 ((if loadOk then st else emptyMemory) u)) := by
    simp only [get_user_context, max_context_items]
    exact takeLast_contextOfConversations _
  refine ⟨hmain, ?_, ?_⟩
  · rw [hmain, length_contextOfConversations]
    omega
  · rw [hmain]
    exact alternates_contextOfConversations _

/-- C1 counterexample: when the generation backend succeeds but returns
whitespace-only text, `process_message` hands back the empty string, so the
reply is not always non-empty. -/
theorem process_empty_reply_counterexample :
    (process_message_run "x" "u" true emptyMemory
        (GenBackend.success (fun _ => " ")) 0 true true "t").1 = "" := by
  decide

/-- C1 (amended): `process_message` is total (never raises); whenever a step's
exception escapes to it, the reply is exactly `error_reply`; and the reply is
non-empty whenever the generation backend is unavailable or failing, in
particular when both adapters fail. -/
theorem process_message_failure_semantics :
    (∀ g s, process_message (Except.error ()) g s = error_reply) ∧
    (∀ ctx s, process_message (Except.ok ctx) (fun _ => Except.error ()) s
        = error_reply) ∧
    (∀ ctx r, process_message (Except.ok ctx) (fun _ => Except.ok r)
        (fun _ => Except.error ()) = error_reply) ∧
    (∀ content username loadOk st pick loadOk2 saveOk ts b,
        b = GenBackend.unavailable ∨ b = GenBackend.failure →
        0 < ((process_message_run content username loadOk st b pick
            loadOk2 saveOk ts).1).length) := by
  refine ⟨fun g s => rfl, fun ctx s => rfl, fun ctx r => rfl, ?_⟩
  intro content username loadOk st pick loadOk2 saveOk ts b hb
  rcases hb with hb | hb <;> subst hb
  · exact fallback_reply_length_pos content pick
  · show 0 <
      ("I'm having trouble generating a response right now. Please try again in a moment." : String).length
    decide

/-- Witness for C1 (amended) at a concrete input: both adapters failing still
yields a non-empty reply. -/
theorem process_message_failure_semantics_witness :
    0 < ((process_message_run "What is up?" "bob" false emptyMemory
        GenBackend.unavailable 0 false false "t").1).length :=
  process_message_failure_semantics.2.2.2 "What is up?" "bob" false emptyMemory
    0 false false "t" GenBackend.unavailable (Or.inl rfl)

/-- C3 counterexample: a successful backend call returning whitespace-only
text makes `generate_response` return the empty string, so the primary path
is not always non-empty. -/
theorem generate_empty_counterexample :
    generate_response "x" [] (GenBackend.success (fun _ => " ")) 0 = "" := by
  decide

/-- C3 (amended): `generate_response` is total (never raises); on the keyword
fallback path and on backend failure it returns non-empty text; on backend
success it returns the backend's text for the built prompt with surrounding
whitespace stripped, which is empty exactly when that text is whitespace-only. -/
theorem generate_response_paths :
    (∀ m ctx pick,
        0 < (generate_response m ctx GenBackend.unavailable pick).length) ∧
    (∀ m ctx pick,
        0 < (generate_response m ctx GenBackend.failure pick).length) ∧
    (∀ m ctx pick f, generate_response m ctx (GenBackend.success f) pick
        = pyStrip (f (build_prompt m ctx))) := by
  refine ⟨?_, ?_, fun m ctx pick f => rfl⟩
  · intro m ctx pick
    exact fallback_reply_length_pos m pick
  · intro m ctx pick
    show 0 <
      ("I'm having trouble generating a response right now. Please try again in a moment." : String).length
    decide

/-- C8: with the backend unavailable, `generate_response "hello" []` is
exactly the greeting template instantiated at "hello" (and so contains the
substring "hello"), and every fallback reply echoes the original message
verbatim inside the reply. -/
theorem fallback_greeting_class :
    (∀ pick, generate_response "hello" [] GenBackend.unavailable pick
        = "Hello! I received your greeting: '" ++ "hello" ++
          "'. I'm your AI assistant, currently running in fallback mode while we resolve some compatibility issues, but I'm here to help!") ∧
    (∀ pick, containsSubstring
        (generate_response "hello" [] GenBackend.unavailable pick) "hello") ∧
    (∀ m ctx pick, containsSubstring
        (generate_response m ctx GenBackend.unavailable pick) m) := by
  have hgen : ∀ (m : String) (ctx : List PyDict) (pick : Nat),
      generate_response m ctx GenBackend.unavailable pick
        = fallback_reply m pick := fun _ _ _ => rfl
  have hecho : ∀ (m : String) (ctx : List PyDict) (pick : Nat),
      containsSubstring (generate_response m ctx GenBackend.unavailable pick)
        m := by
    intro m ctx pick
    obtain ⟨a, b, heq, _⟩ := fallback_reply_echo m pick
    exact ⟨a, b, by rw [hgen, heq]⟩
  refine ⟨?_, fun pick => hecho "hello" [] pick, hecho⟩
  intro pick
  rw [hgen]
  have hc : containsAny (strToLower "hello")
      ["hello", "hi", "hey", "greetings"] = true := by decide
  simp only [fallback_reply]
  rw [if_pos hc]

set_option maxRecDepth 8192 in
/-- C6 (code evaluation): the items `get_user_context` returns never carry the
`user_message`/`bot_response` keys `_format_context` reads, so the formatted
context section is the empty string for every retrieved context, and the
prompt built for a non-empty retrieved context carries an empty context
section after its header. -/
theorem format_context_mismatch :
    (∀ loadOk st u, format_context (get_user_context loadOk st u) = "") ∧
    format_context [[("role", "user"), ("content", "hi")],
        [("role", "assistant"), ("content", "hello there")]] = "" ∧
    build_prompt "how are you?" [[("role", "user"), ("content", "hi")],
        [("role", "assistant"), ("content", "hello there")]]
      = String.intercalate "\n\n" [get_system_prompt,
          "Previous conversation context:\n",
          "User message: how are you?",
          "Please respond naturally and helpfully:"] := by
  have hall : ∀ (loadOk : Bool) (st : SimpleMemory) (u : String),
      ∀ it ∈ get_user_context loadOk st u,
        dictGet it "user_message" "" = "" := by
    intro loadOk st u it hit
    apply mem_contextOfConversations_no_user_message it
      ((if loadOk then st else emptyMemory) u)
    have hsub : get_user_context loadOk st u
        ⊆ contextOfConversations ((if loadOk then st else emptyMemory) u) := by
      simp only [get_user_context]
      exact takeLast_subset _ _
    exact hsub hit
  refine ⟨fun loadOk st u => format_context_all_roles _ (hall loadOk st u),
    by decide, by decide⟩

/-- C9 counterexample: a chat-typed payload declaring the bot's own published
identity as its sender is not filtered out: it reaches
`process_chat_message`. -/
theorem self_sender_reaches_processor :
    handle_data_received "raw" "user1"
        (some ⟨none, some "hi", some "chat", some bot_identity⟩)
      = HandlerAction.processCall "hi" "user1" := rfl

/-- C9 (amended): the handler filters by message type only; the envelope's
declared sender never influences the action, so chat-typed payloads trigger a
process call whatever sender they declare (including the bot's own identity),
and only payloads of a non-chat type are ignored. -/
theorem handler_ignores_declared_sender :
    (∀ text pid c m t s1 s2,
        handle_data_received text pid (some ⟨c, m, t, s1⟩)
          = handle_data_received text pid (some ⟨c, m, t, s2⟩)) ∧
    (∀ text pid c m s ty, ty ≠ "chat-message" → ty ≠ "chat" →
        handle_data_received text pid (some ⟨c, m, some ty, s⟩)
          = HandlerAction.ignored) ∧
    (∀ text pid c m s, ∃ body,
        handle_data_received text pid (some ⟨c, m, some "chat", s⟩)
          = HandlerAction.processCall body pid) := by
  refine ⟨fun text pid c m t s1 s2 => rfl, ?_, ?_⟩
  · intro text pid c m s ty h1 h2
    have hb1 : (ty == "chat-message") = false := beq_eq_false_iff_ne.mpr h1
    have hb2 : (ty == "chat") = false := beq_eq_false_iff_ne.mpr h2
    simp only [handle_data_received]
    simp [hb1, hb2]
  · intro text pid c m s
    exact ⟨_, rfl⟩

/-- Witness for C9 (amended) at a concrete input: a non-chat type is
ignored. -/
theorem handler_ignores_declared_sender_witness :
    handle_data_received "x" "p"
        (some ⟨none, some "hi", some "system", some "AI Assistant"⟩)
      = HandlerAction.ignored :=
  handler_ignores_declared_sender.2.1 "x" "p" none (some "hi")
    (some "AI Assistant") "system" (by decide) (by decide)

end Memora
